import Mathlib

/-!
Verification development for the `html_generator` package of the pypage
repository: a shallow embedding of the element tree (`elements.py`), the
page assembler (`page.py`) and the serialization engine (`export_tools.py`),
with theorems settling the specification claims about them.

Conventions of the embedding:
  * JSON-safe Python values (the payload of the serializer and the dynamic
    values stored on reconstructed instances) are the inductive `Json`.
  * A Python `dict` is an insertion-ordered association list with unique
    keys; `dictSet` is `d[k] = v` (replace in place or append), `dictGet`
    is lookup.
  * Dynamic attribute presence matters: an instance attribute that a code
    path never assigns is `none` at the meta level (reading it raises
    `AttributeError`), while an attribute assigned the Python value `None`
    is `some Json.null`.
  * Fallible code returns `Except PyErr α`.
-/

/-- JSON-safe Python value (`None`/`bool`/`int`/`str`/`list`/`dict`). -/
inductive Json where
  | null : Json
  | bool : Bool → Json
  | num : Int → Json
  | str : String → Json
  | arr : List Json → Json
  | obj : List (String × Json) → Json
deriving Repr

/-- Python exceptions raised by the embedded code. -/
inductive PyErr where
  | attributeError (cls attr : String)
  | keyError (key : String)
  | typeError (msg : String)
  | valueError (msg : String)
deriving Repr, DecidableEq

/-- Python type name of a `Json` value, as it appears in error messages. -/
def Json.typeName : Json → String
  | .null => "NoneType"
  | .bool _ => "bool"
  | .num _ => "int"
  | .str _ => "str"
  | .arr _ => "list"
  | .obj _ => "dict"

/-- Python truthiness of a JSON-safe value. -/
def Json.truthy : Json → Bool
  | .null => false
  | .bool b => b
  | .num n => n ≠ 0
  | .str s => s ≠ ""
  | .arr xs => !xs.isEmpty
  | .obj kvs => !kvs.isEmpty

/-- Truthiness of an optional string (`None` and `""` are falsy). -/
def strTruthy : Option String → Bool
  | none => false
  | some s => s ≠ ""

/-- Lookup in a Python dict (association list with unique keys). -/
def dictGet : List (String × Json) → String → Option Json
  | [], _ => none
  | (k', v') :: rest, k => if k' = k then some v' else dictGet rest k

/-- Python `d[k] = v`: replace the value in place if the key exists, else append. -/
def dictSet : List (String × Json) → String → Json → List (String × Json)
  | [], k, v => [(k, v)]
  | (k', v') :: rest, k, v =>
    if k' = k then (k, v) :: rest else (k', v') :: dictSet rest k v

/-- Python `d.get(k, dflt)`. -/
def dictGetD (kvs : List (String × Json)) (k : String) (dflt : Json) : Json :=
  (dictGet kvs k).getD dflt

/-- Python `k in d`. -/
def dictHas (kvs : List (String × Json)) (k : String) : Bool :=
  (dictGet kvs k).isSome

/-- Python `d[k]`, raising `KeyError` when the key is missing. -/
def dictIndex (kvs : List (String × Json)) (k : String) : Except PyErr Json :=
  match dictGet kvs k with
  | some v => .ok v
  | none => .error (.keyError k)

mutual
/-- Python `repr()` of a JSON-safe value. For container values CPython
quotes nested strings; numbers, booleans and `None` print as `int`/`bool`/
`NoneType` literals. -/
def pyRepr : Json → String
  | .null => "None"
  | .bool true => "True"
  | .bool false => "False"
  | .num n => toString n
  | .str s => "\x27" ++ s ++ "\x27"
  | .arr xs => "[" ++ pyReprListAux xs ++ "]"
  | .obj kvs => "\x7b" ++ pyReprPairsAux kvs ++ "\x7d"

/-- Comma-separated `repr`s of the elements of a list. -/
def pyReprListAux : List Json → String
  | [] => ""
  | [x] => pyRepr x
  | x :: xs => pyRepr x ++ ", " ++ pyReprListAux xs

/-- Comma-separated `repr`s of the items of a dict. -/
def pyReprPairsAux : List (String × Json) → String
  | [] => ""
  | [(k, v)] => "\x27" ++ k ++ "\x27: " ++ pyRepr v
  | (k, v) :: kvs => "\x27" ++ k ++ "\x27: " ++ pyRepr v ++ ", " ++ pyReprPairsAux kvs
end

/-- Python `str()` of a JSON-safe value (as interpolated by an f-string). -/
def pyStr : Json → String
  | .str s => s
  | v => pyRepr v

mutual
/-- Dynamic state of an `Element` instance (`elements.py`).

`className` is the instance's runtime class name (`__class__.__name__`),
recorded because the deserializer dispatches on it.  The five dynamic
slots are `Option`-wrapped: `none` means the attribute was never assigned
on this instance (so reading it raises `AttributeError`).  Notably
`Element.__init__` assigns `tag`, `content` and `attributes` but never the
instance attributes `css_class`, `id_attr` or `style` (it folds those into
`attributes`), while `ExportManager._dict_to_element` assigns all of them
directly. -/
inductive PyElem where
  | mk (className : String)
       (tag : Json)
       (css_class id_attr style : Option Json)
       (attributes : Option Json)
       (content : Option PyContent)
       (child_elements : Option (List PyItem))
       (fields : Option (List PyElem))
       (columns : Option (List PyElem))

/-- Value of the `content` slot: a string, a single nested element, or a
list of elements and strings (the shapes produced by `Element.__init__`
and by `_dict_to_element`). -/
inductive PyContent where
  | str (s : String)
  | node (e : PyElem)
  | list (items : List PyItem)

/-- An entry of a `content`/`child_elements` list: an element or a string. -/
inductive PyItem where
  | node (e : PyElem)
  | str (s : String)
end

def PyElem.className : PyElem → String
  | .mk c _ _ _ _ _ _ _ _ _ => c

def PyElem.tag : PyElem → Json
  | .mk _ t _ _ _ _ _ _ _ _ => t

def PyElem.css_class : PyElem → Option Json
  | .mk _ _ cc _ _ _ _ _ _ _ => cc

def PyElem.id_attr : PyElem → Option Json
  | .mk _ _ _ ia _ _ _ _ _ _ => ia

def PyElem.style : PyElem → Option Json
  | .mk _ _ _ _ st _ _ _ _ _ => st

def PyElem.attributes : PyElem → Option Json
  | .mk _ _ _ _ _ a _ _ _ _ => a

def PyElem.content : PyElem → Option PyContent
  | .mk _ _ _ _ _ _ c _ _ _ => c

def PyElem.child_elements : PyElem → Option (List PyItem)
  | .mk _ _ _ _ _ _ _ ce _ _ => ce

def PyElem.fields : PyElem → Option (List PyElem)
  | .mk _ _ _ _ _ _ _ _ f _ => f

def PyElem.columns : PyElem → Option (List PyElem)
  | .mk _ _ _ _ _ _ _ _ _ c => c

def PyElem.withAttributes (e : PyElem) (a : Option Json) : PyElem :=
  match e with
  | .mk cn t cc ia st _ c ce f co => .mk cn t cc ia st a c ce f co

/-- Python `str.join` on a list of strings. -/
def pyJoin (sep : String) : List String → String
  | [] => ""
  | [x] => x
  | x :: xs => x ++ sep ++ pyJoin sep xs

/-- Python `str.rstrip()`: drop trailing whitespace. -/
def pyRstrip (s : String) : String :=
  ⟨(s.data.reverse.dropWhile (fun c => c ∈ [' ', '\t', '\n', '\r', '\x0b', '\x0c'])).reverse⟩

/-- CPython prints an object without `__str__` as
`<module.Class object at 0x...>`; the process-dependent address is elided
in this model (it is constant for a fixed live object, which is all the
claims depend on). -/
def objectRepr (e : PyElem) : String :=
  "<html_generator.elements." ++ e.className ++ " object>"

/-- Python `repr` of one entry of a `content` list. -/
def PyItem.reprStr : PyItem → String
  | .node e => objectRepr e
  | .str s => "\x27" ++ s ++ "\x27"

/-- Python truthiness of a `content` value. -/
def PyContent.pyTruthy : PyContent → Bool
  | .str s => s ≠ ""
  | .node _ => true
  | .list items => !items.isEmpty

/-- Python `str()` of a `content` value, as interpolated by `render`. -/
def PyContent.toPyStr : PyContent → String
  | .str s => s
  | .node e => objectRepr e
  | .list items => "[" ++ pyJoin ", " (items.map PyItem.reprStr) ++ "]"

/-- Model of `Element.__init__(tag, content, attributes, css_class, id_attr, style,
class_name)`. `className` is the runtime class of the instance being
initialised (`"Element"` itself, or a subclass delegating to this
constructor). The css class / id / style arguments are folded into the
`attributes` dict; the instance attributes `css_class`, `id_attr` and
`style` themselves are never assigned (left `none`). -/
def Element.init (className : String) (tag : String) (content : String)
    (attributes : Option (List (String × Json)))
    (css_class : Option String) (id_attr : Option String)
    (style : Option String) (class_name : Option String) : PyElem :=
  let attrs0 := attributes.getD []
  let final_class := if strTruthy class_name then class_name else css_class
  let attrs1 := if strTruthy final_class
    then dictSet attrs0 "class" (.str (final_class.getD "")) else attrs0
  let attrs2 := if strTruthy id_attr
    then dictSet attrs1 "id" (.str (id_attr.getD "")) else attrs1
  let attrs3 := if strTruthy style
    then dictSet attrs2 "style" (.str (style.getD "")) else attrs2
  .mk className (.str tag) none none none (some (.obj attrs3))
    (some (.str content)) none none none

/-- Model of `Element.set_attribute(name, value)`: `self.attributes[name] = value`. -/
def Element.set_attribute (e : PyElem) (name value : String) : Except PyErr PyElem :=
  match e.attributes with
  | none => .error (.attributeError e.className "attributes")
  | some (.obj kvs) => .ok (e.withAttributes (some (.obj (dictSet kvs name (.str value)))))
  | some v => .error (.typeError
      ("\x27" ++ v.typeName ++ "\x27 object does not support item assignment"))

/-- Model of `Element.add_class(css_class)`. -/
def Element.add_class (e : PyElem) (css_class : String) : Except PyErr PyElem :=
  match e.attributes with
  | none => .error (.attributeError e.className "attributes")
  | some (.obj kvs) =>
    let current_class := dictGetD kvs "class" (.str "")
    if current_class.truthy then
      .ok (e.withAttributes (some (.obj
        (dictSet kvs "class" (.str (pyStr current_class ++ " " ++ css_class))))))
    else
      .ok (e.withAttributes (some (.obj (dictSet kvs "class" (.str css_class)))))
  | some v => .error (.attributeError v.typeName "get")

/-- Model of `Element.set_id(id_attr)`: `self.attributes['id'] = id_attr`. -/
def Element.set_id (e : PyElem) (id_attr : String) : Except PyErr PyElem :=
  match e.attributes with
  | none => .error (.attributeError e.className "attributes")
  | some (.obj kvs) => .ok (e.withAttributes (some (.obj (dictSet kvs "id" (.str id_attr)))))
  | some v => .error (.typeError
      ("\x27" ++ v.typeName ++ "\x27 object does not support item assignment"))

/-- Model of `Element.set_style(style)`: `self.attributes['style'] = style`. -/
def Element.set_style (e : PyElem) (style : String) : Except PyErr PyElem :=
  match e.attributes with
  | none => .error (.attributeError e.className "attributes")
  | some (.obj kvs) => .ok (e.withAttributes (some (.obj (dictSet kvs "style" (.str style)))))
  | some v => .error (.typeError
      ("\x27" ++ v.typeName ++ "\x27 object does not support item assignment"))

/-- Model of `Element.add_style(style)`: append to the existing inline style,
inserting a `"; "` separator unless the stripped current value already
ends in a semicolon. -/
def Element.add_style (e : PyElem) (style : String) : Except PyErr PyElem :=
  match e.attributes with
  | none => .error (.attributeError e.className "attributes")
  | some (.obj kvs) =>
    let current := dictGetD kvs "style" (.str "")
    if current.truthy then
      match current with
      | .str s =>
        let s' := if !(pyRstrip s).endsWith ";" then s ++ "; " else s ++ " "
        .ok (e.withAttributes (some (.obj (dictSet kvs "style" (.str (s' ++ style))))))
      | v => .error (.attributeError v.typeName "rstrip")
    else
      match current with
      | .str s => .ok (e.withAttributes (some (.obj (dictSet kvs "style" (.str (s ++ style))))))
      | v => .error (.typeError
          ("unsupported operand type(s) for +: \x27" ++ v.typeName ++ "\x27 and \x27str\x27"))
  | some v => .error (.attributeError v.typeName "get")

/-- Model of `Element.set_event(event, handler)`: `self.attributes[event] = handler`. -/
def Element.set_event (e : PyElem) (event handler : String) : Except PyErr PyElem :=
  match e.attributes with
  | none => .error (.attributeError e.className "attributes")
  | some (.obj kvs) => .ok (e.withAttributes (some (.obj (dictSet kvs event (.str handler)))))
  | some v => .error (.typeError
      ("\x27" ++ v.typeName ++ "\x27 object does not support item assignment"))

/-- Model of `Element.render_attributes()`: `""` for a falsy attribute dict,
otherwise a leading space and `key="value"` pairs joined by spaces. -/
def Element.render_attributes (e : PyElem) : Except PyErr String :=
  match e.attributes with
  | none => .error (.attributeError e.className "attributes")
  | some a =>
    if !a.truthy then .ok ""
    else match a with
      | .obj kvs => .ok (" " ++ pyJoin " " (kvs.map (fun kv => kv.1 ++ "=\"" ++ pyStr kv.2 ++ "\"")))
      | v => .error (.attributeError v.typeName "items")

/-- Model of `Element.render()`: the base-class renderer
(`<tag attrs>content</tag>`, with the content part dropped when the
content value is falsy). -/
def Element.render (e : PyElem) : Except PyErr String := do
  let attrs ← Element.render_attributes e
  match e.content with
  | none => .error (.attributeError e.className "content")
  | some c =>
    if c.pyTruthy then
      .ok ("<" ++ pyStr e.tag ++ attrs ++ ">" ++ c.toPyStr ++ "</" ++ pyStr e.tag ++ ">")
    else
      .ok ("<" ++ pyStr e.tag ++ attrs ++ "></" ++ pyStr e.tag ++ ">")

/-- State of a `Heading` instance (`page.py`): the constructor stores its
arguments unchecked. -/
structure Heading where
  text : String
  level : Int
  css_class : Option String
  id_attr : Option String
deriving Repr, DecidableEq

/-- Model of `Heading.__init__(text, level, css_class, id_attr)`: no validation. -/
def Heading.init (text : String) (level : Int) (css_class : Option String)
    (id_attr : Option String) : Heading :=
  { text := text, level := level, css_class := css_class, id_attr := id_attr }

/-- Model of `Heading.render()`: raises `ValueError` unless `1 <= level <= 6`,
otherwise renders `<h{level}...>{text}</h{level}>`. -/
def Heading.render (h : Heading) : Except PyErr String :=
  if !(1 ≤ h.level && h.level ≤ 6) then
    .error (.valueError "Heading level must be between 1 and 6.")
  else
    let class_attr := if strTruthy h.css_class
      then " class=\"" ++ h.css_class.getD "" ++ "\"" else ""
    let id_attr := if strTruthy h.id_attr
      then " id=\"" ++ h.id_attr.getD "" ++ "\"" else ""
    .ok ("<h" ++ toString h.level ++ class_attr ++ id_attr ++ ">" ++ h.text
      ++ "</h" ++ toString h.level ++ ">")

/-- Bound needed for the recursion of the serializer: a value found in a
dict is smaller than the dict. -/
theorem sizeOf_dictGet : ∀ (kvs : List (String × Json)) (k : String) (v : Json),
    dictGet kvs k = some v → sizeOf v < 1 + sizeOf kvs
  | [], _, _, h => by simp [dictGet] at h
  | (k', v') :: rest, k, v, h => by
    by_cases hk : k' = k
    · simp [dictGet, hk] at h
      subst h
      simp only [List.cons.sizeOf_spec, Prod.mk.sizeOf_spec]
      omega
    · simp [dictGet, hk] at h
      have := sizeOf_dictGet rest k v h
      simp only [List.cons.sizeOf_spec]
      omega

/-- The fixed entries of `ExportManager._element_to_dict(element)`'s dict
literal, evaluated in source order: the reads of the instance attributes
`css_class`, `id_attr` and `style` raise `AttributeError` when the
attribute was never assigned (which `Element.__init__` never does), and
they happen before any recursion into children. -/
def elementDictBase (cn : String) (tg : Json) (cc ia st a : Option Json) :
    Except PyErr (List (String × Json)) := do
  let cssc ← match cc with
    | some v => pure v
    | none => .error (.attributeError cn "css_class")
  let ida ← match ia with
    | some v => pure v
    | none => .error (.attributeError cn "id_attr")
  let sty ← match st with
    | some v => pure v
    | none => .error (.attributeError cn "style")
  pure [("type", .str "Element"), ("class_name", .str cn), ("tag", tg),
    ("css_class", cssc), ("id_attr", ida), ("style", sty),
    ("attributes", a.getD (.obj []))]

mutual
/-- Model of `ExportManager._element_to_dict(element)`: assembles the base entries,
then the optional `content`, `child_elements`, `fields` and `columns`
entries, recursing into nested elements. -/
def elementToDict : PyElem → Except PyErr Json
  | .mk cn tg cc ia st a ct ce fs co => do
    let data0 ← elementDictBase cn tg cc ia st a
    let data1 ← elementDictContent data0 ct
    let data2 ← elementDictChildren data1 ce
    let data3 ← elementDictSpecial "fields" data2 fs
    let data4 ← elementDictSpecial "columns" data3 co
    pure (.obj data4)

/-- The serialized `content` entry (added only when the attribute is
present): a list recurses entrywise, a nested element recurses, a string
passes through as `str(content)`. -/
def elementDictContent (data : List (String × Json)) :
    Option PyContent → Except PyErr (List (String × Json))
  | none => pure data
  | some (.list items) => do
    let ds ← elemItemsToDict items
    pure (dictSet data "content" (.arr ds))
  | some (.node e') => do
    let d ← elementToDict e'
    pure (dictSet data "content" d)
  | some (.str s) => pure (dictSet data "content" (.str s))

/-- The serialized `child_elements` entry (only when present). -/
def elementDictChildren (data : List (String × Json)) :
    Option (List PyItem) → Except PyErr (List (String × Json))
  | none => pure data
  | some items => do
    let ds ← elemItemsToDict items
    pure (dictSet data "child_elements" (.arr ds))

/-- The serialized `fields`/`columns` entry (only when present). -/
def elementDictSpecial (key : String) (data : List (String × Json)) :
    Option (List PyElem) → Except PyErr (List (String × Json))
  | none => pure data
  | some es => do
    let ds ← elemListToDict es
    pure (dictSet data key (.arr ds))

/-- One entry of a `content`/`child_elements` list on export: recurse when
the entry has a `render` attribute (an element), else `str(item)`. -/
def elemItemsToDict : List PyItem → Except PyErr (List Json)
  | [] => pure []
  | .node e :: rest => do
    let d ← elementToDict e
    let ds ← elemItemsToDict rest
    pure (d :: ds)
  | .str s :: rest => do
    let ds ← elemItemsToDict rest
    pure (.str s :: ds)

/-- Export of a `fields`/`columns` list: every entry is an element. -/
def elemListToDict : List PyElem → Except PyErr (List Json)
  | [] => pure []
  | e :: rest => do
    let d ← elementToDict e
    let ds ← elemListToDict rest
    pure (d :: ds)
end

/-- Keys of the fixed `class_map` registry in
`ExportManager._dict_to_element`; each maps to the constructor of the same
name. -/
def class_map_keys : List String :=
  ["Element", "Container", "Div", "Paragraph", "Form", "Input", "Button",
   "TextArea", "Select", "Row", "Column", "Flex", "Alert", "Badge",
   "ProgressBar", "Accordion", "Modal"]

/-- Model of `class_map.get(class_name, Element)`: the runtime class chosen for
reconstruction, identified by its name. Hashable keys that match no
registry entry (an unrecognized string, `None`, a bool or a number) fall
back to `Element`; an unhashable key (a list or a dict) makes `dict.get`
raise `TypeError: unhashable type`. -/
def classMapGet : Json → Except PyErr String
  | .str s => .ok (if s ∈ class_map_keys then s else "Element")
  | .arr _ => .error (.typeError "unhashable type: \x27list\x27")
  | .obj _ => .error (.typeError "unhashable type: \x27dict\x27")
  | _ => .ok "Element"

/-- Python `for x in v`: lists yield their entries, strings their
characters, dicts their keys; other JSON-safe values raise `TypeError`. -/
def pyIter : Json → Except PyErr (List Json)
  | .arr xs => .ok xs
  | .str s => .ok (s.data.map (fun c => .str (String.singleton c)))
  | .obj kvs => .ok (kvs.map (fun kv => .str kv.1))
  | v => .error (.typeError ("\x27" ++ v.typeName ++ "\x27 object is not iterable"))

mutual
/-- Model of `ExportManager._dict_to_element(data)`: looks up `class_name` in the
fixed registry (falling back to `Element`), creates the instance with
`ElementClass.__new__` (no constructor side effects), then assigns `tag`,
`css_class`, `id_attr`, `style` and `attributes` directly (`data.get`
defaults, so these are always present afterwards, with Python `None` for
missing css/id/style) and reconstructs `content`, `child_elements`,
`fields` and `columns` when their keys are present. Called on a non-dict,
`data.get` raises `AttributeError`. -/
def dictToElement : Json → Except PyErr PyElem
  | .obj kvs => do
    let cls ← classMapGet (dictGetD kvs "class_name" (.str "Element"))
    let tag := dictGetD kvs "tag" (.str "div")
    let cssc := dictGetD kvs "css_class" .null
    let ida := dictGetD kvs "id_attr" .null
    let sty := dictGetD kvs "style" .null
    let attrs := dictGetD kvs "attributes" (.obj [])
    let ct ← match h : dictGet kvs "content" with
      | none => pure none
      | some (.arr items) => do
        let its ← dictItemsToElems items
        pure (some (.list its))
      | some (.obj kvs') => do
        let e' ← dictToElement (.obj kvs')
        pure (some (.node e'))
      | some v => pure (some (.str (pyStr v)))
    let ce ← match h : dictGet kvs "child_elements" with
      | none => pure none
      | some (.arr items) => do
        let its ← dictItemsToElems items
        pure (some its)
      | some v => do
        -- a non-list iterable yields only non-dict entries (characters of
        -- a string, keys of a dict), each taken through `str(child)`
        let items ← pyIter v
        pure (some (items.map (fun j => PyItem.str (pyStr j))))
    let fs ← match h : dictGet kvs "fields" with
      | none => pure none
      | some (.arr items) => do
        let es ← dictElemsFromDicts items
        pure (some es)
      | some v => do
        -- every entry of a non-list iterable is a non-dict, and
        -- `_dict_to_element` on it raises (`.get` missing); an empty
        -- iterable yields the empty list
        let items ← pyIter v
        match items with
        | [] => pure (some [])
        | j :: _ => .error (.attributeError j.typeName "get")
    let co ← match h : dictGet kvs "columns" with
      | none => pure none
      | some (.arr items) => do
        let es ← dictElemsFromDicts items
        pure (some es)
      | some v => do
        let items ← pyIter v
        match items with
        | [] => pure (some [])
        | j :: _ => .error (.attributeError j.typeName "get")
    pure (.mk cls tag (some cssc) (some ida) (some sty) (some attrs) ct ce fs co)
  | v => .error (.attributeError v.typeName "get")
termination_by j => sizeOf j
decreasing_by
  all_goals simp_wf
  all_goals first
  | (have hlt := sizeOf_dictGet _ _ _ h
     simp only [Json.arr.sizeOf_spec, Json.obj.sizeOf_spec] at hlt ⊢
     omega)
  | (simp only [List.cons.sizeOf_spec, Json.obj.sizeOf_spec] at *
     omega)

/-- Entries of a serialized `content`/`child_elements` list: dicts are
reconstructed recursively, everything else becomes `str(item)`. -/
def dictItemsToElems : List Json → Except PyErr (List PyItem)
  | [] => pure []
  | .obj kvs :: rest => do
    let e ← dictToElement (.obj kvs)
    let es ← dictItemsToElems rest
    pure (.node e :: es)
  | j :: rest => do
    let es ← dictItemsToElems rest
    pure (.str (pyStr j) :: es)
termination_by l => sizeOf l
decreasing_by
  all_goals simp_wf
  all_goals (first | omega | (simp only [List.cons.sizeOf_spec, Json.obj.sizeOf_spec] at *; omega))

/-- Entries of a serialized `fields`/`columns` list: every entry is passed
to `_dict_to_element` unconditionally. -/
def dictElemsFromDicts : List Json → Except PyErr (List PyElem)
  | [] => pure []
  | j :: rest => do
    let e ← dictToElement j
    let es ← dictElemsFromDicts rest
    pure (e :: es)
termination_by l => sizeOf l
decreasing_by
  all_goals simp_wf
  all_goals (first | omega | (simp only [List.cons.sizeOf_spec, Json.obj.sizeOf_spec] at *; omega))
end

/-- The navigation-bar stylesheet returned by `Page.get_modern_navbar_css` (verbatim). -/
def get_modern_navbar_css : String :=
  "\n        * \x7b\n            margin: 0;\n            padding: 0;\n            box-sizing: border-box;\n            font-family: \x27Segoe UI\x27, Tahoma, Geneva, Verdana, sans-serif;\n        \x7d\n\n        .navbar \x7b\n            background: linear-gradient(135deg, #4a7dff 0%, #6a11cb 100%);\n            padding: 1rem 2rem;\n            box-shadow: 0 4px 15px rgba(0, 0, 0, 0.15);\n            position: sticky;\n            top: 0;\n            z-index: 1000;\n            transition: all 0.3s ease;\n        \x7d\n        \n        .navbar.scrolled \x7b\n            box-shadow: 0 2px 10px rgba(0, 0, 0, 0.2);\n            padding: 0.5rem 2rem;\n        \x7d\n\n        .nav-container \x7b\n            display: flex;\n            justify-content: space-between;\n            align-items: center;\n            max-width: 1200px;\n            margin: 0 auto;\n        \x7d\n\n        .logo \x7b\n            color: white;\n            font-size: 1.8rem;\n            font-weight: 700;\n            text-decoration: none;\n            display: flex;\n            align-items: center;\n        \x7d\n\n        .logo-icon \x7b\n            margin-right: 10px;\n            font-size: 2rem;\n        \x7d\n\n        .nav-links \x7b\n            display: flex;\n            list-style: none;\n        \x7d\n\n        .nav-item \x7b\n            position: relative;\n            margin-left: 1.5rem;\n        \x7d\n\n        .nav-link \x7b\n            color: rgba(255, 255, 255, 0.95);\n            text-decoration: none;\n            font-weight: 600;\n            font-size: 1.1rem;\n            transition: all 0.3s cubic-bezier(0.25, 0.8, 0.25, 1);\n            padding: 0.5rem 1rem;\n            display: flex;\n            align-items: center;\n            position: relative;\n        \x7d\n        \n        .nav-link::after \x7b\n            content: \x27\x27;\n            position: absolute;\n            bottom: 0;\n            left: 50%;\n            width: 0;\n            height: 2px;\n            background: white;\n            transition: all 0.3s;\n        \x7d\n        \n        .nav-link:hover::after \x7b\n            width: 60%;\n            left: 20%;\n        \x7d\n\n        .nav-link:hover \x7b\n            color: white;\n        \x7d\n\n        .nav-link i \x7b\n            margin-left: 5px;\n            font-size: 0.9rem;\n            transition: transform 0.3s;\n        \x7d\n\n        .dropdown-menu \x7b\n            position: absolute;\n            top: 100%;\n            left: 0;\n            background-color: white;\n            border-radius: 0.75rem;\n            box-shadow: 0 6px 20px rgba(0, 0, 0, 0.15);\n            list-style: none;\n            width: 220px;\n            opacity: 0;\n            visibility: hidden;\n            transition: all 0.4s cubic-bezier(0.25, 0.8, 0.25, 1);\n            transform: translateY(15px);\n            z-index: 999;\n            border: 1px solid rgba(0, 0, 0, 0.05);\n            padding: 0.5rem 0;\n        \x7d\n\n        .dropdown-menu.show \x7b\n            opacity: 1;\n            visibility: visible;\n            transform: translateY(0);\n        \x7d\n\n        .dropdown-item \x7b\n            padding: 0.75rem 1rem;\n            border-bottom: 1px solid #f0f0f0;\n        \x7d\n\n        .dropdown-item:last-child \x7b\n            border-bottom: none;\n        \x7d\n\n        .dropdown-link \x7b\n            color: #333;\n            text-decoration: none;\n            font-size: 0.95rem;\n            transition: color 0.2s;\n            display: block;\n        \x7d\n\n        .dropdown-link:hover \x7b\n            color: #667eea;\n        \x7d\n\n        .nav-btn \x7b\n            background-color: white;\n            color: #4a7dff;\n            border: none;\n            padding: 0.6rem 1.5rem;\n            border-radius: 2rem;\n            font-weight: 700;\n            cursor: pointer;\n            transition: all 0.3s cubic-bezier(0.25, 0.8, 0.25, 1);\n            box-shadow: 0 4px 8px rgba(0, 0, 0, 0.1);\n            letter-spacing: 0.5px;\n        \x7d\n\n        .nav-btn:hover \x7b\n            transform: translateY(-2px);\n            box-shadow: 0 4px 8px rgba(0, 0, 0, 0.1);\n        \x7d\n\n        .hamburger \x7b\n            display: none;\n            cursor: pointer;\n            width: 30px;\n            height: 21px;\n            position: relative;\n            background: transparent;\n            border: none;\n            outline: none;\n        \x7d\n\n        .hamburger span \x7b\n            display: block;\n            position: absolute;\n            height: 3px;\n            width: 100%;\n            background: white;\n            border-radius: 3px;\n            opacity: 1;\n            left: 0;\n            transform: rotate(0deg);\n            transition: all 0.3s;\n        \x7d\n\n        .hamburger span:nth-child(1) \x7b\n            top: 0px;\n        \x7d\n\n        .hamburger span:nth-child(2), .hamburger span:nth-child(3) \x7b\n            top: 9px;\n        \x7d\n\n        .hamburger span:nth-child(4) \x7b\n            top: 18px;\n        \x7d\n\n        .hamburger.open span:nth-child(1),\n        .hamburger.open span:nth-child(4) \x7b\n            top: 9px;\n            width: 0%;\n            left: 50%;\n        \x7d\n\n        .hamburger.open span:nth-child(2) \x7b\n            transform: rotate(45deg);\n        \x7d\n\n        .hamburger.open span:nth-child(3) \x7b\n            transform: rotate(-45deg);\n        \x7d\n\n        @media (max-width: 992px) \x7b\n            .hamburger \x7b\n                display: block;\n            \x7d\n\n            .nav-links \x7b\n                position: fixed;\n                top: 85px;\n                left: -100%;\n                width: 80%;\n                height: calc(100vh - 85px);\n                background-color: white;\n                flex-direction: column;\n                align-items: flex-start;\n                padding: 2rem;\n                transition: all 0.5s;\n                box-shadow: 2px 0 10px rgba(0, 0, 0, 0.1);\n            \x7d\n\n            .nav-links.active \x7b\n                left: 0;\n            \x7d\n\n            .nav-item \x7b\n                margin: 1rem 0;\n                width: 100%;\n            \x7d\n\n            .nav-link \x7b\n                color: #333;\n                font-size: 1.2rem;\n                padding: 0.5rem 0;\n            \x7d\n\n            .dropdown-menu \x7b\n                position: static;\n                width: 100%;\n                display: none;\n                border-radius: 0;\n                box-shadow: none;\n                opacity: 1;\n                visibility: visible;\n                transform: none;\n                transition: none;\n                margin-top: 0.5rem;\n            \x7d\n\n            .dropdown-menu.show \x7b\n                display: block;\n            \x7d\n\n            .dropdown-item \x7b\n                padding: 0.5rem 0;\n            \x7d\n\n            .dropdown-link \x7b\n                font-size: 1rem;\n                padding-left: 1rem;\n            \x7d\n\n            .nav-btn \x7b\n                width: 100%;\n                text-align: left;\n                padding: 0.75rem 0;\n                background-color: transparent;\n                color: #667eea;\n                box-shadow: none;\n                font-size: 1.2rem;\n            \x7d\n\n            .nav-btn:hover \x7b\n                transform: none;\n                box-shadow: none;\n            \x7d\n        \x7d\n        "

/-- The navigation-bar script returned by `Page.get_modern_navbar_js` (verbatim). -/
def get_modern_navbar_js : String :=
  "\n        // Mobile menu toggle and scroll effect\n        const navbar = document.querySelector(\x27.navbar\x27);\n        const hamburger = document.querySelector(\x27.hamburger\x27);\n        const navLinks = document.querySelector(\x27.nav-links\x27);\n        const navItems = document.querySelectorAll(\x27.nav-item\x27);\n        \n        // Add scroll effect\n        window.addEventListener(\x27scroll\x27, () => \x7b\n            if (window.scrollY > 50) \x7b\n                navbar.classList.add(\x27scrolled\x27);\n            \x7d else \x7b\n                navbar.classList.remove(\x27scrolled\x27);\n            \x7d\n        \x7d);\n        \n        hamburger.addEventListener(\x27click\x27, () => \x7b\n            hamburger.classList.toggle(\x27open\x27);\n            navLinks.classList.toggle(\x27active\x27);\n        \x7d);\n        \n        // Close mobile menu when clicking a link\n        navItems.forEach(item => \x7b\n            const link = item.querySelector(\x27.nav-link\x27);\n            if (link) \x7b\n                link.addEventListener(\x27click\x27, () => \x7b\n                    if (window.innerWidth <= 992) \x7b\n                        hamburger.classList.remove(\x27open\x27);\n                        navLinks.classList.remove(\x27active\x27);\n                    \x7d\n                \x7d);\n            \x7d\n            \n            // Toggle dropdowns on mobile\n            const dropdownToggle = item.querySelector(\x27.nav-link i\x27);\n            if (dropdownToggle) \x7b\n                dropdownToggle.addEventListener(\x27click\x27, (e) => \x7b\n                    e.preventDefault();\n                    e.stopPropagation();\n                    const dropdown = item.querySelector(\x27.dropdown-menu\x27);\n                    dropdown.classList.toggle(\x27show\x27);\n                \x7d);\n            \x7d\n        \x7d);\n        \n        // Desktop dropdown functionality\n        navItems.forEach(item => \x7b\n            if (window.innerWidth > 992) \x7b\n                const link = item.querySelector(\x27.nav-link\x27);\n                const dropdown = item.querySelector(\x27.dropdown-menu\x27);\n                \n                if (dropdown) \x7b\n                    item.addEventListener(\x27mouseenter\x27, () => \x7b\n                        dropdown.classList.add(\x27show\x27);\n                    \x7d);\n                    \n                    item.addEventListener(\x27mouseleave\x27, () => \x7b\n                        dropdown.classList.remove(\x27show\x27);\n                    \x7d);\n                \x7d\n            \x7d\n        \x7d);\n        \n        // Resize event listener\n        window.addEventListener(\x27resize\x27, () => \x7b\n            if (window.innerWidth > 992) \x7b\n                hamburger.classList.remove(\x27open\x27);\n                navLinks.classList.remove(\x27active\x27);\n                \n                // Hide all dropdowns on desktop\n                document.querySelectorAll(\x27.dropdown-menu\x27).forEach(dropdown => \x7b\n                    dropdown.classList.remove(\x27show\x27);\n                \x7d);\n            \x7d\n        \x7d);\n        "

/-- Concatenation accumulator (the `s += piece` loops of `page.py`). -/
def strConcatMap (f : α → String) : List α → String
  | [] => ""
  | x :: xs => f x ++ strConcatMap f xs

/-- Fallible concatenation accumulator (loops whose body can raise). -/
def exceptConcatMap (f : α → Except PyErr String) : List α → Except PyErr String
  | [] => pure ""
  | x :: xs => do
    let s ← f x
    let r ← exceptConcatMap f xs
    pure (s ++ r)

/-- Python `needle in hay` on strings. -/
def strContains (hay needle : String) : Bool :=
  (hay.splitOn needle).length ≥ 2

/-- Python `v == "s"` for a JSON-safe `v` and a string literal. -/
def jsonEqStr (j : Json) (s : String) : Bool :=
  match j with
  | .str t => t = s
  | _ => false

/-- Dynamic state of a `Page` instance: exactly the attributes
`Page.__init__` assigns. `title`, `header_text`, `logo_url` and
`custom_css` are kept as JSON-safe values because the deserializer passes
raw mapping entries to the constructor; the nested `navbar_config` dict is
flattened into its five leaves (only `brand.name`/`brand.icon` are ever
read by the renderer). The `template_manager` slot (`None` at
construction, only consulted by the template helpers, which no claim
touches) is omitted. Note there is no `content` and no `current_theme`
attribute, and no `add_css`/`add_js` method — facts the serializer
depends on. -/
structure Page where
  title : Json
  header_text : Json
  logo_url : Json
  nav_links : List Json
  header_class : Option String
  body_content : List String
  css_framework : String
  custom_css : Json
  meta_tags : List (String × Json)
  scripts : List String
  css_links : List String
  body_classes : List String
  container_class : String
  use_modern_navbar : Bool
  navbar_brand_name : String
  navbar_brand_icon : String
  navbar_style : String
  navbar_dropdown_support : Bool
  navbar_mobile_responsive : Bool
deriving Repr

/-- Model of `Page.add_meta_tag(name, content)`: `self.meta_tags[name] = content`. -/
def Page.add_meta_tag (p : Page) (name : String) (content : Json) : Page :=
  { p with meta_tags := dictSet p.meta_tags name content }

/-- Model of `Page.add_css_link(href)`. -/
def Page.add_css_link (p : Page) (href : String) : Page :=
  { p with css_links := p.css_links ++ [href] }

/-- Model of `Page.add_script(src)`. -/
def Page.add_script (p : Page) (src : String) : Page :=
  { p with scripts := p.scripts ++ [src] }

/-- Model of `Page.add_body_class(class_name)`. -/
def Page.add_body_class (p : Page) (class_name : String) : Page :=
  { p with body_classes := p.body_classes ++ [class_name] }

/-- Model of `Page.set_container_class(class_name)`. -/
def Page.set_container_class (p : Page) (class_name : String) : Page :=
  { p with container_class := class_name }

/-- Model of `Page.add_navbar(nav_links)`: extends the link list. -/
def Page.add_navbar (p : Page) (nav_links : List Json) : Page :=
  { p with nav_links := p.nav_links ++ nav_links }

/-- Model of `Page.__init__(title, header_text, logo_url, nav_links, header_class,
css_framework, custom_css, use_modern_navbar)`: stores its arguments,
initialises the collections and the navbar config, and for the default
`"bootstrap"` framework registers the dark-theme stylesheet and the
bootstrap bundle script. -/
def Page.init (title header_text : Json) (logo_url : Json) (nav_links : List Json)
    (header_class : Option String) (css_framework : String) (custom_css : Json)
    (use_modern_navbar : Bool) : Page :=
  let p : Page :=
    { title := title, header_text := header_text, logo_url := logo_url,
      nav_links := nav_links, header_class := header_class, body_content := [],
      css_framework := css_framework, custom_css := custom_css, meta_tags := [],
      scripts := [], css_links := [], body_classes := [],
      container_class := "container", use_modern_navbar := use_modern_navbar,
      navbar_brand_name := "NexusLabs", navbar_brand_icon := "🌟",
      navbar_style := "modern", navbar_dropdown_support := true,
      navbar_mobile_responsive := true }
  if css_framework = "bootstrap" then
    (p.add_css_link "https://cdn.replit.com/agent/bootstrap-agent-dark-theme.min.css").add_script
      "https://cdn.jsdelivr.net/npm/bootstrap@5.3.0/dist/js/bootstrap.bundle.min.js"
  else p

/-- Model of `Page.configure_navbar(brand_name, brand_icon, style, dropdown_support,
mobile_responsive)`. -/
def Page.configure_navbar (p : Page) (brand_name brand_icon : Option String)
    (style : String) (dropdown_support mobile_responsive : Bool) : Page :=
  { p with
    navbar_brand_name := brand_name.getD p.navbar_brand_name,
    navbar_brand_icon := brand_icon.getD p.navbar_brand_icon,
    navbar_style := style,
    navbar_dropdown_support := dropdown_support,
    navbar_mobile_responsive := mobile_responsive }

/-- Model of `Page.set_theme(theme)`: drop the css links containing `"bootstrap"`
(case-insensitively), then register the links/scripts of the chosen
theme. -/
def Page.set_theme (p : Page) (theme : Json) : Page :=
  let filtered := p.css_links.filter (fun link => !(strContains link.toLower "bootstrap"))
  let p := { p with css_links := filtered }
  if jsonEqStr theme "bootstrap" then
    p.add_css_link "https://cdn.replit.com/agent/bootstrap-agent-dark-theme.min.css"
  else if jsonEqStr theme "bootstrap-light" then
    p.add_css_link "https://cdn.jsdelivr.net/npm/bootstrap@5.3.0/dist/css/bootstrap.min.css"
  else if jsonEqStr theme "tailwind" then
    p.add_css_link "https://cdn.tailwindcss.com"
  else if jsonEqStr theme "bulma" then
    p.add_css_link "https://cdn.jsdelivr.net/npm/bulma@0.9.4/css/bulma.min.css"
  else if jsonEqStr theme "material" then
    ((p.add_css_link "https://fonts.googleapis.com/icon?family=Material+Icons").add_css_link
      "https://cdnjs.cloudflare.com/ajax/libs/materialize/1.0.0/css/materialize.min.css").add_script
      "https://cdnjs.cloudflare.com/ajax/libs/materialize/1.0.0/js/materialize.min.js"
  else p

/-- Dynamic dispatch of `render()` for instances the embedding can hold.
Of the `class_map` variants whose sources are under `src` (Element,
Container, Div, Paragraph, Row, Column, Flex), none overrides
`Element.render`, so dispatch reaches the base-class renderer. Modelled
from the spec: the Form/Input/Button/TextArea/Select and
Alert/Badge/ProgressBar/Accordion/Modal variants live in
`html_generator/forms.py` and `html_generator/components.py`, which are
absent from `src`; the spec describes them only as f-string templating
widgets, so their `render` is modelled by the base-class renderer as
well. No theorem below depends on the output of `render` for those ten
class names. -/
def PyElem.renderDyn (e : PyElem) : Except PyErr String :=
  Element.render e

/-- Model of `Page.add_content(content)` for an argument with a `render` attribute:
append the string rendered at call time. -/
def Page.add_content_element (p : Page) (e : PyElem) : Except PyErr Page := do
  let s ← e.renderDyn
  pure { p with body_content := p.body_content ++ [s] }

/-- Model of `Page.add_content(content)` for a non-renderable argument: append
`str(content)`. -/
def Page.add_content_str (p : Page) (s : String) : Page :=
  { p with body_content := p.body_content ++ [s] }

/-- Model of `Page.render_meta_tags()`. -/
def Page.render_meta_tags (p : Page) : String :=
  strConcatMap
    (fun kv => "    <meta name=\"" ++ kv.1 ++ "\" content=\"" ++ pyStr kv.2 ++ "\">\n")
    p.meta_tags

/-- Model of `Page.render_css_links()`. -/
def Page.render_css_links (p : Page) : String :=
  strConcatMap
    (fun href => "    <link rel=\"stylesheet\" href=\"" ++ href ++ "\">\n")
    p.css_links

/-- Model of `Page.render_scripts()`. -/
def Page.render_scripts (p : Page) : String :=
  strConcatMap
    (fun src => "    <script src=\"" ++ src ++ "\"></script>\n")
    p.scripts

/-- One entry of the basic navbar's item loop (`Page.render_basic_navbar`). -/
def basicNavItem (link : Json) : String :=
  match link with
  | .obj kvs =>
    "<li class=\"nav-item\"><a class=\"nav-link text-light\" href=\""
      ++ pyStr (dictGetD kvs "url" (.str "#")) ++ "\">"
      ++ pyStr (dictGetD kvs "text" (.str "Link")) ++ "</a></li>"
  | j =>
    "<li class=\"nav-item\"><a class=\"nav-link text-light\" href=\""
      ++ pyStr j ++ "\">" ++ pyStr j ++ "</a></li>"

/-- Model of `Page.render_basic_navbar()`. -/
def Page.render_basic_navbar (p : Page) : String :=
  "\n        <nav class=\"navbar-nav\">\n            <ul class=\"nav\">\n                "
    ++ strConcatMap basicNavItem p.nav_links
    ++ "\n            </ul>\n        </nav>\n        "

/-- One entry of a dropdown list in `Page.render_modern_navbar`: a
non-dict entry raises when `.get` is read. -/
def modernDropdownItem (di : Json) : Except PyErr String :=
  match di with
  | .obj kvs =>
    pure ("\n                        <li class=\"dropdown-item\">\n                            <a href=\""
      ++ pyStr (dictGetD kvs "url" (.str "#")) ++ "\" class=\"dropdown-link\">"
      ++ pyStr (dictGetD kvs "text" (.str "Item")) ++ "</a>\n                        </li>")
  | v => .error (.attributeError v.typeName "get")

/-- One entry of the modern navbar's item loop (`Page.render_modern_navbar`):
a dict with a `dropdown` key renders a dropdown menu (iterating the
`dropdown` value), a plain dict renders a regular link, anything else a
bare item. -/
def modernNavItem (link : Json) : Except PyErr String :=
  match link with
  | .obj kvs =>
    if dictHas kvs "dropdown" then do
      let entries ← pyIter (dictGetD kvs "dropdown" .null)
      let dropdown_items ← exceptConcatMap modernDropdownItem entries
      pure ("\n                    <li class=\"nav-item\">\n                        <a href=\""
        ++ pyStr (dictGetD kvs "url" (.str "#")) ++ "\" class=\"nav-link\">\n                            "
        ++ pyStr (dictGetD kvs "text" (.str "Link"))
        ++ "\n                            <i>▼</i>\n                        </a>\n                        <ul class=\"dropdown-menu\">\n                            "
        ++ dropdown_items
        ++ "\n                        </ul>\n                    </li>")
    else
      pure ("\n                    <li class=\"nav-item\">\n                        <a href=\""
        ++ pyStr (dictGetD kvs "url" (.str "#")) ++ "\" class=\"nav-link\">"
        ++ pyStr (dictGetD kvs "text" (.str "Link")) ++ "</a>\n                    </li>")
  | j =>
    pure ("\n                <li class=\"nav-item\">\n                    <a href=\"#\" class=\"nav-link\">"
      ++ pyStr j ++ "</a>\n                </li>")

/-- Model of `Page.render_modern_navbar()`. -/
def Page.render_modern_navbar (p : Page) : Except PyErr String := do
  let nav_items ← exceptConcatMap modernNavItem p.nav_links
  pure ("\n        <nav class=\"navbar\">\n            <div class=\"nav-container\">\n                <a href=\"#\" class=\"logo\">\n                    <span class=\"logo-icon\">"
    ++ p.navbar_brand_icon ++ "</span>\n                    <span>" ++ p.navbar_brand_name
    ++ "</span>\n                </a>\n\n                <button class=\"hamburger\">\n                    <span></span>\n                    <span></span>\n                    <span></span>\n                    <span></span>\n                </button>\n\n                <ul class=\"nav-links\">\n                    "
    ++ nav_items
    ++ "\n                    <li class=\"nav-item\">\n                        <button class=\"nav-btn\">Get Started</button>\n                    </li>\n                </ul>\n            </div>\n        </nav>")

/-- Model of `Page.render_navbar()`. -/
def Page.render_navbar (p : Page) : Except PyErr String :=
  if p.nav_links.isEmpty && !p.use_modern_navbar then pure ""
  else if p.use_modern_navbar then p.render_modern_navbar
  else pure p.render_basic_navbar

/-- Model of `Page.render_header()`. -/
def Page.render_header (p : Page) : Except PyErr String := do
  let logo_html := if p.logo_url.truthy then
      "<img src=\"" ++ pyStr p.logo_url ++ "\" alt=\"Logo\" class=\"logo me-3\" style=\"height: 40px;\">"
    else ""
  let header_class_attr := if strTruthy p.header_class then
      " class=\"" ++ p.header_class.getD "" ++ "\""
    else " class=\"bg-dark text-light py-3\""
  let navbar ← p.render_navbar
  pure ("\n        <header" ++ header_class_attr
    ++ ">\n            <div class=\"container\">\n                <div class=\"d-flex align-items-center justify-content-between\">\n                    <div class=\"d-flex align-items-center\">\n                        "
    ++ logo_html ++ "\n                        <h1 class=\"h3 mb-0\">" ++ pyStr p.header_text
    ++ "</h1>\n                    </div>\n                    " ++ navbar
    ++ "\n                </div>\n            </div>\n        </header>\n        ")

/-- Model of `Page.generate_html()`: assembles the complete document. The `<head>`
is emitted in the fixed source order: charset and viewport meta, title,
`render_meta_tags()`, `render_css_links()`, then the inline `<style>`
block (navbar CSS when the modern navbar is enabled, followed by the
custom CSS when truthy). -/
def Page.generate_html (p : Page) : Except PyErr String := do
  let body_class_attr := if !p.body_classes.isEmpty then
      " class=\"" ++ pyJoin " " p.body_classes ++ "\"" else ""
  let body := pyJoin "\n" p.body_content
  let all_css0 := if p.use_modern_navbar then get_modern_navbar_css else ""
  let all_css ← if p.custom_css.truthy then
      match p.custom_css with
      | .str s => pure (all_css0 ++ "\n" ++ s)
      | v => .error (.typeError
          ("can only concatenate str (not \"" ++ v.typeName ++ "\") to str"))
    else pure all_css0
  let custom_css_tag := if all_css ≠ "" then
      "<style>\n" ++ all_css ++ "\n    </style>" else ""
  let navbar_js := if p.use_modern_navbar then
      "<script>\n" ++ get_modern_navbar_js ++ "\n    </script>" else ""
  let header ← p.render_header
  pure ("<!DOCTYPE html>\n<html lang=\"en\" data-bs-theme=\"dark\">\n<head>\n    <meta charset=\"UTF-8\">\n    <meta name=\"viewport\" content=\"width=device-width, initial-scale=1.0\">\n    <title>"
    ++ pyStr p.title ++ "</title>\n"
    ++ p.render_meta_tags ++ p.render_css_links ++ "    " ++ custom_css_tag
    ++ "\n</head>\n<body" ++ body_class_attr ++ ">\n    " ++ header
    ++ "\n    <main class=\"" ++ p.container_class ++ " mt-4\">\n        " ++ body
    ++ "\n    </main>\n" ++ p.render_scripts ++ "    " ++ navbar_js
    ++ "\n</body>\n</html>")

/-- A value the export manager dispatches on: a `Page` or an `Element`. -/
inductive PyObj where
  | page (p : Page)
  | elem (e : PyElem)

/-- Model of `ExportManager._page_to_dict(page)`: the dict literal evaluates its
entries in source order — `type`, `title`, `header_text`,
`getattr(page, 'logo_url', None)` (assigned by `__init__`),
`getattr(page, 'current_theme', 'bootstrap')` (never assigned, so the
default) — and then iterates `page.content`. `Page` never defines a
`content` attribute (`Page.__init__` stores rendered fragments in
`body_content`), so every call raises `AttributeError` at that entry. -/
def pageToDict (p : Page) : Except PyErr Json :=
  let _entriesBeforeTheRead : List (String × Json) :=
    [("type", .str "Page"), ("title", p.title), ("header_text", p.header_text),
     ("logo_url", p.logo_url), ("theme", .str "bootstrap")]
  .error (.attributeError "Page" "content")

/-- Model of `ExportManager.to_dict(element)`: isinstance dispatch. (A value that
is neither a `Page` nor an `Element` raises `TypeError`; such values are
outside this embedding.) -/
def ExportManager.to_dict : PyObj → Except PyErr Json
  | .page p => pageToDict p
  | .elem e => elementToDict e

/-- Steps of `ExportManager._dict_to_page(data)` before the content loop:
`Page(data['title'], data['header_text'], data.get('logo_url'))` (square
brackets, so missing keys raise `KeyError`), then `set_theme` when a
`theme` key is present. -/
def pagePreContent (kvs : List (String × Json)) : Except PyErr Page := do
  let title ← dictIndex kvs "title"
  let header_text ← dictIndex kvs "header_text"
  let page := Page.init title header_text (dictGetD kvs "logo_url" .null)
    [] none "bootstrap" .null true
  match dictGet kvs "theme" with
  | some theme => pure (page.set_theme theme)
  | none => pure page

/-- The content loop of `_dict_to_page`: dict entries are reconstructed
with `_dict_to_element` and added (rendering them at add time), anything
else is added as `str(content_data)`. -/
def pageContentLoop (p : Page) : List Json → Except PyErr Page
  | [] => pure p
  | item :: rest => do
    let p' ← match item with
      | .obj kvs' => do
        let e ← dictToElement (.obj kvs')
        Page.add_content_element p e
      | j => pure (Page.add_content_str p (pyStr j))
    pageContentLoop p' rest

/-- The stage of `ExportManager._dict_to_page(data)` up to and including
the content loop: construct the page, apply the theme, then reconstruct
and add each content entry. -/
def dictToPageUpToContent (kvs : List (String × Json)) : Except PyErr Page := do
  let page ← pagePreContent kvs
  let contentItems ← pyIter (dictGetD kvs "content" (.arr []))
  pageContentLoop page contentItems

/-- Model of `ExportManager._dict_to_page(data)`. After the content loop it runs
`for css in data.get('custom_css', []): page.add_css(css)` and
`for js in data.get('custom_js', []): page.add_js(js)` — but `Page`
defines `add_css_link`/`add_script` and no `add_css`/`add_js` method, so
the first iteration of a non-empty loop raises `AttributeError`; finally
the `meta_tags` mapping is copied over. -/
def dictToPage (kvs : List (String × Json)) : Except PyErr Page := do
  let page ← dictToPageUpToContent kvs
  let cssItems ← pyIter (dictGetD kvs "custom_css" (.arr []))
  let page ← match cssItems with
    | [] => pure page
    | _ :: _ => .error (.attributeError "Page" "add_css")
  let jsItems ← pyIter (dictGetD kvs "custom_js" (.arr []))
  let page ← match jsItems with
    | [] => pure page
    | _ :: _ => .error (.attributeError "Page" "add_js")
  let metas ← match dictGetD kvs "meta_tags" (.obj []) with
    | .obj ms => pure ms
    | v => .error (.attributeError v.typeName "items")
  pure (metas.foldl (fun pg kv => Page.add_meta_tag pg kv.1 kv.2) page)

/-- Model of `ExportManager.from_dict(data)`: dispatch on `data.get('type') ==
'Page'`; every other `type` value (or a missing key) goes to
`_dict_to_element`. Called on a non-dict, `.get` raises. -/
def ExportManager.from_dict (data : Json) : Except PyErr PyObj :=
  match data with
  | .obj kvs =>
    if jsonEqStr (dictGetD kvs "type" .null) "Page" then
      (dictToPage kvs).map .page
    else
      (dictToElement (.obj kvs)).map .elem
  | v => .error (.attributeError v.typeName "get")

/-- Spaces of an indentation level of `json.dumps(..., indent=2)`. -/
def jsonIndent (level : Nat) : String :=
  ⟨List.replicate (2 * level) ' '⟩

/-- JSON text encoding of a string (the `ensure_ascii` transliteration of
non-ASCII characters is not modelled; no proof depends on dumped text). -/
def jsonQuote (s : String) : String :=
  "\"" ++ String.join (s.data.map (fun c =>
    if c = '\\' then "\\\\"
    else if c = '"' then "\\\""
    else if c = '\n' then "\\n"
    else if c = '\t' then "\\t"
    else if c = '\r' then "\\r"
    else String.singleton c)) ++ "\""

mutual
/-- Model of `json.dumps(v, indent=2)`, at a given nesting level. -/
def jsonDumps (level : Nat) : Json → String
  | .null => "null"
  | .bool true => "true"
  | .bool false => "false"
  | .num n => toString n
  | .str s => jsonQuote s
  | .arr [] => "[]"
  | .arr xs =>
    "[\n" ++ pyJoin ",\n" (jsonDumpsArr (level + 1) xs) ++ "\n" ++ jsonIndent level ++ "]"
  | .obj [] => "\x7b\x7d"
  | .obj kvs =>
    "\x7b\n" ++ pyJoin ",\n" (jsonDumpsObj (level + 1) kvs) ++ "\n" ++ jsonIndent level ++ "\x7d"

/-- Dumped entries of a JSON array. -/
def jsonDumpsArr (level : Nat) : List Json → List String
  | [] => []
  | x :: xs => (jsonIndent level ++ jsonDumps level x) :: jsonDumpsArr level xs

/-- Dumped entries of a JSON object. -/
def jsonDumpsObj (level : Nat) : List (String × Json) → List String
  | [] => []
  | (k, v) :: kvs =>
    (jsonIndent level ++ jsonQuote k ++ ": " ++ jsonDumps level v) :: jsonDumpsObj level kvs
end

/-- Model of `ExportManager.to_json(element, indent=2)`:
`json.dumps(self.to_dict(element), indent=indent)`. -/
def ExportManager.to_json (x : PyObj) : Except PyErr String :=
  (ExportManager.to_dict x).map (jsonDumps 0)

/-- Statements of the client program fragment behind the body-freezing
claim: one page and one element are live; the page can absorb the element
(`page.add_content(elem)`), and the element can be mutated afterwards
through its public setters. -/
inductive Op where
  | addContent : Op
  | setAttributeOp (name value : String) : Op
  | addClassOp (css_class : String) : Op
  | setIdOp (id_attr : String) : Op
  | setStyleOp (style : String) : Op
  | addStyleOp (style : String) : Op
  | setEventOp (event handler : String) : Op
deriving Repr, DecidableEq

/-- Whether an operation only touches the element (every setter does). -/
def Op.elemOnly : Op → Bool
  | .addContent => false
  | _ => true

/-- Execute one statement on the (page, element) state. -/
def applyOp : Op → Page × PyElem → Except PyErr (Page × PyElem)
  | .addContent, (p, e) => (Page.add_content_element p e).map (fun p' => (p', e))
  | .setAttributeOp n v, (p, e) => (Element.set_attribute e n v).map (fun e' => (p, e'))
  | .addClassOp c, (p, e) => (Element.add_class e c).map (fun e' => (p, e'))
  | .setIdOp i, (p, e) => (Element.set_id e i).map (fun e' => (p, e'))
  | .setStyleOp s, (p, e) => (Element.set_style e s).map (fun e' => (p, e'))
  | .addStyleOp s, (p, e) => (Element.add_style e s).map (fun e' => (p, e'))
  | .setEventOp ev h, (p, e) => (Element.set_event e ev h).map (fun e' => (p, e'))

/-- Run a statement list; a raised exception aborts the program but the
objects keep the state they had when it was raised. -/
def runOps : List Op → Page × PyElem → (Page × PyElem) × Option PyErr
  | [], st => (st, none)
  | op :: ops, st =>
    match applyOp op st with
    | .ok st' => runOps ops st'
    | .error err => (st, some err)

/-- Model of `Element.render()` as a state transformer on the receiver: the method
body only reads `self.tag`, `self.attributes` and `self.content` (no
assignment occurs), so the receiver is returned unchanged next to the
produced HTML. -/
def Element.render_m (e : PyElem) : Except PyErr (String × PyElem) :=
  (Element.render e).map (fun s => (s, e))

/-- Sample page used by concrete witnesses: `Page("T", "H")`. -/
def samplePage : Page :=
  Page.init (.str "T") (.str "H") .null [] none "bootstrap" .null true

/-- Sample constructor-built element used by concrete witnesses:
`Element("div", "x")`. -/
def sampleElem : PyElem :=
  Element.init "Element" "div" "x" none none none none none

/-- Page exercised by the head-ordering claim: `Page(t, h)` with meta tags
`a1`/`b1` added in that order and css links `x`/`y` added in that order. -/
def pageWithMetasAndLinks (t h a1 a2 b1 b2 x y : String) : Page :=
  ((((Page.init (.str t) (.str h) .null [] none "bootstrap" .null
    true).add_meta_tag a1 (.str a2)).add_meta_tag b1 (.str b2)).add_css_link
    x).add_css_link y

/-! Helper lemmas shared by the claim proofs. -/

theorem exPure (a : α) : (pure a : Except PyErr α) = Except.ok a := rfl

theorem exBindOk (a : α) (f : α → Except PyErr β) :
    (Except.ok a >>= f : Except PyErr β) = f a := rfl

theorem exBindErr (err : PyErr) (f : α → Except PyErr β) :
    ((Except.error err : Except PyErr α) >>= f) = Except.error err := rfl

theorem exMapErr (f : α → β) (err : PyErr) :
    (Except.map f (Except.error err : Except PyErr α)) = Except.error err := rfl

/-- Exporting any element whose `css_class` instance attribute was never
assigned raises `AttributeError` before any other work. -/
theorem elementToDict_noCss (cn : String) (tg : Json) (ia st : Option Json)
    (a : Option Json) (ct : Option PyContent) (ce : Option (List PyItem))
    (fs co : Option (List PyElem)) :
    elementToDict (.mk cn tg none ia st a ct ce fs co) =
      .error (.attributeError cn "css_class") := by
  rw [elementToDict]
  simp [elementDictBase, exBindErr]

/-- The navbar stylesheet is a non-empty string, so the inline `<style>`
block is always emitted for a modern-navbar page. -/
theorem navbarCssEqEmpty_false : (get_modern_navbar_css = "") = False := by
  simp [get_modern_navbar_css]

/-- Frame property of the statement semantics: a run consisting only of
element mutations never changes the page component of the state. -/
theorem runOps_elemOnly_page (muts : List Op) : ∀ (q : Page) (f : PyElem),
    (∀ op ∈ muts, op.elemOnly = true) → ((runOps muts (q, f)).1).1 = q := by
  induction muts with
  | nil => intro q f _; rfl
  | cons op ops ih =>
    intro q f hmut
    have hop : op.elemOnly = true := hmut op (List.mem_cons_self _ _)
    have hrest : ∀ o ∈ ops, o.elemOnly = true :=
      fun o ho => hmut o (List.mem_cons_of_mem _ ho)
    cases op with
    | addContent => simp [Op.elemOnly] at hop
    | setAttributeOp n v =>
      cases hr : Element.set_attribute f n v with
      | ok e' => simp [runOps, applyOp, hr, Except.map, ih _ _ hrest]
      | error err => simp [runOps, applyOp, hr, Except.map]
    | addClassOp c =>
      cases hr : Element.add_class f c with
      | ok e' => simp [runOps, applyOp, hr, Except.map, ih _ _ hrest]
      | error err => simp [runOps, applyOp, hr, Except.map]
    | setIdOp i =>
      cases hr : Element.set_id f i with
      | ok e' => simp [runOps, applyOp, hr, Except.map, ih _ _ hrest]
      | error err => simp [runOps, applyOp, hr, Except.map]
    | setStyleOp sv =>
      cases hr : Element.set_style f sv with
      | ok e' => simp [runOps, applyOp, hr, Except.map, ih _ _ hrest]
      | error err => simp [runOps, applyOp, hr, Except.map]
    | addStyleOp sv =>
      cases hr : Element.add_style f sv with
      | ok e' => simp [runOps, applyOp, hr, Except.map, ih _ _ hrest]
      | error err => simp [runOps, applyOp, hr, Except.map]
    | setEventOp ev hd =>
      cases hr : Element.set_event f ev hd with
      | ok e' => simp [runOps, applyOp, hr, Except.map, ih _ _ hrest]
      | error err => simp [runOps, applyOp, hr, Except.map]

/-- C1: the spec's round-trip property `from_dict(to_dict(n)).render() ==
n.render()` fails at its first step for nodes built through the public
constructor and setters: on the failing input `Element("div", "x")`,
`to_dict` raises `AttributeError` (the serializer reads the instance
attribute `css_class`, which `Element.__init__` never assigns), so the
round trip never produces a node to render. -/
theorem claim_C1 :
    ExportManager.to_dict (.elem sampleElem) =
      .error (.attributeError "Element" "css_class") := by
  simp [ExportManager.to_dict, sampleElem, Element.init, elementToDict_noCss]

/-- C2: the example pipeline fails at its first step: for `Page("T", "H")`,
`to_json` raises `AttributeError` because `_page_to_dict` iterates
`page.content`, an attribute `Page` never defines (its body fragments live
in `body_content`), so no JSON document, parse, `from_json` or
`generate_html` is ever reached. -/
theorem claim_C2 :
    ExportManager.to_json (.page samplePage) =
      .error (.attributeError "Page" "content") := rfl

/-- C3 (amended): a mapping whose top-level `type` is any value other than
`"Page"` does not fail: `from_dict` falls through to element
deserialization and succeeds, defaulting every missing optional key (class
`Element`, tag `"div"`, `css_class`/`id_attr`/`style` set to `None`, empty
attribute dict, no content). -/
theorem claim_C3 (t : String) (hne : t ≠ "Page") :
    ExportManager.from_dict (.obj [("type", .str t)]) =
      .ok (.elem (.mk "Element" (.str "div") (some .null) (some .null) (some .null)
        (some (.obj [])) none none none none)) := by
  simp [ExportManager.from_dict, jsonEqStr, dictGetD, dictGet, hne, dictToElement,
    classMapGet, class_map_keys, Except.map, exPure, exBindOk]

/-- C3, counterexample to the claim as stated: the unrecognized top-level
discriminator `"Banana"` does not raise a `TypeError` or
`DeserializationError` — `from_dict` succeeds and returns a generic
element. -/
theorem claim_C3_counterexample :
    ExportManager.from_dict (.obj [("type", .str "Banana")]) =
      .ok (.elem (.mk "Element" (.str "div") (some .null) (some .null) (some .null)
        (some (.obj [])) none none none none)) := by
  simp [ExportManager.from_dict, jsonEqStr, dictGetD, dictGet, dictToElement,
    classMapGet, class_map_keys, Except.map, exPure, exBindOk]

theorem claim_C3_witness :
    ExportManager.from_dict (.obj [("type", .str "Widget")]) =
      .ok (.elem (.mk "Element" (.str "div") (some .null) (some .null) (some .null)
        (some (.obj [])) none none none none)) :=
  claim_C3 "Widget" (by decide)

/-- C4: an unrecognized `class_name` degrades to the generic base class:
for every name outside the fixed registry, deserializing
`{"type": "Element", "class_name": name, "tag": "div", "attributes": {},
"content": "x"}` succeeds, yields an instance of class `Element`, and its
`render()` returns exactly `<div>x</div>`. -/
theorem claim_C4 (cn : String) (hcn : cn ∉ class_map_keys) :
    ExportManager.from_dict (.obj [("type", .str "Element"), ("class_name", .str cn),
      ("tag", .str "div"), ("attributes", .obj []), ("content", .str "x")]) =
      .ok (.elem (.mk "Element" (.str "div") (some .null) (some .null) (some .null)
        (some (.obj [])) (some (.str "x")) none none none))
    ∧ Element.render (.mk "Element" (.str "div") (some .null) (some .null) (some .null)
        (some (.obj [])) (some (.str "x")) none none none) = .ok "<div>x</div>" := by
  constructor
  · simp [ExportManager.from_dict, jsonEqStr, dictGetD, dictGet, dictToElement,
      classMapGet, hcn, pyStr, Except.map, exPure, exBindOk]
  · rfl

theorem claim_C4_witness :
    ExportManager.from_dict (.obj [("type", .str "Element"), ("class_name", .str "NoSuchWidget"),
      ("tag", .str "div"), ("attributes", .obj []), ("content", .str "x")]) =
      .ok (.elem (.mk "Element" (.str "div") (some .null) (some .null) (some .null)
        (some (.obj [])) (some (.str "x")) none none none))
    ∧ Element.render (.mk "Element" (.str "div") (some .null) (some .null) (some .null)
        (some (.obj [])) (some (.str "x")) none none none) = .ok "<div>x</div>" :=
  claim_C4 "NoSuchWidget" (by decide)

/-- C5: constructing a `Heading` never validates: levels 0 and 7 are
stored as given and the `InvalidArgument` (`ValueError`) surfaces at
render time, while every level from 1 to 6 renders as an `<h{level}>` tag
wrapping the heading text. -/
theorem claim_C5 (text : String) (cc ia : Option String) (l : Int)
    (h1 : 1 ≤ l) (h6 : l ≤ 6) :
    Heading.init text 0 cc ia =
      { text := text, level := 0, css_class := cc, id_attr := ia }
    ∧ Heading.render (Heading.init text 0 cc ia) =
      .error (.valueError "Heading level must be between 1 and 6.")
    ∧ Heading.render (Heading.init text 7 cc ia) =
      .error (.valueError "Heading level must be between 1 and 6.")
    ∧ Heading.render (Heading.init text l none none) =
      .ok ("<h" ++ toString l ++ ">" ++ text ++ "</h" ++ toString l ++ ">") := by
  refine ⟨rfl, rfl, rfl, ?_⟩
  simp [Heading.render, Heading.init, strTruthy, h1, h6]

theorem claim_C5_witness :
    Heading.init "t" 0 none none =
      { text := "t", level := 0, css_class := none, id_attr := none }
    ∧ Heading.render (Heading.init "t" 0 none none) =
      .error (.valueError "Heading level must be between 1 and 6.")
    ∧ Heading.render (Heading.init "t" 7 none none) =
      .error (.valueError "Heading level must be between 1 and 6.")
    ∧ Heading.render (Heading.init "t" 3 none none) =
      .ok ("<h" ++ toString (3 : Int) ++ ">" ++ "t" ++ "</h" ++ toString (3 : Int) ++ ">") :=
  claim_C5 "t" none none 3 (by decide) (by decide)

/-- C6: for every instance created through `Element.__init__` (under any
runtime class name, i.e. also through subclass constructors delegating to
it, and for any constructor arguments), `to_dict` raises `AttributeError`:
the serializer reads the instance attribute `css_class`, which the
constructor never assigns (it stores class/id/style only inside the
`attributes` dict). -/
theorem claim_C6 (cls tag content : String) (attrs : Option (List (String × Json)))
    (cc ia st cn : Option String) :
    ExportManager.to_dict (.elem (Element.init cls tag content attrs cc ia st cn)) =
      .error (.attributeError cls "css_class") := by
  simp [ExportManager.to_dict, Element.init, elementToDict_noCss]

/-- C7 (amended): for a mapping with `type` `"Page"` whose prefix
(title/header_text extraction, theme, content loop) deserializes
successfully, a non-empty `custom_css` list makes `from_dict` raise
`AttributeError` (page reconstruction calls `page.add_css`, undefined on
`Page`, whose actual methods are `add_css_link`/`add_script`), and with
an empty `custom_css` iteration a non-empty `custom_js` list makes it
raise `AttributeError` for the undefined `page.add_js`. -/
theorem claim_C7 (kvs : List (String × Json))
    (htype : dictGetD kvs "type" .null = .str "Page") (pg : Page)
    (hok : dictToPageUpToContent kvs = .ok pg) :
    ((∃ c cs, pyIter (dictGetD kvs "custom_css" (.arr [])) = .ok (c :: cs)) →
      ExportManager.from_dict (.obj kvs) = .error (.attributeError "Page" "add_css"))
    ∧ ((pyIter (dictGetD kvs "custom_css" (.arr [])) = .ok [] ∧
        ∃ j js, pyIter (dictGetD kvs "custom_js" (.arr [])) = .ok (j :: js)) →
      ExportManager.from_dict (.obj kvs) = .error (.attributeError "Page" "add_js")) := by
  have hdisp : ExportManager.from_dict (.obj kvs) = (dictToPage kvs).map PyObj.page := by
    simp [ExportManager.from_dict, jsonEqStr, htype]
  constructor
  · rintro ⟨c, cs, hcss⟩
    rw [hdisp, dictToPage, hok]
    simp [exBindOk, exBindErr, hcss, Except.bind, exMapErr]
  · rintro ⟨hcss, j, js, hjs⟩
    rw [hdisp, dictToPage, hok]
    simp [exBindOk, exBindErr, hcss, hjs, Except.bind, pure, Except.pure, exMapErr]

/-- C7, counterexample to the claim as stated: the mapping
`{"type": "Page", "custom_css": ["x"]}` has a non-empty `custom_css` list
but `from_dict` raises `KeyError` (for the missing `title`), not
`AttributeError` — the `add_css` failure is only reached once the
required keys are present. -/
theorem claim_C7_counterexample :
    ExportManager.from_dict (.obj [("type", .str "Page"), ("custom_css", .arr [.str "x"])]) =
      .error (.keyError "title") := rfl

theorem claim_C7_witness :
    ExportManager.from_dict (.obj [("type", .str "Page"), ("title", .str "T"),
      ("header_text", .str "H"), ("custom_css", .arr [.str "body \x7b color: red; \x7d"])]) =
      .error (.attributeError "Page" "add_css") :=
  (claim_C7 [("type", .str "Page"), ("title", .str "T"),
      ("header_text", .str "H"), ("custom_css", .arr [.str "body \x7b color: red; \x7d"])]
    rfl _ (by rfl)).1 ⟨.str "body \x7b color: red; \x7d", [], rfl⟩

set_option maxRecDepth 20000 in
/-- C8: for every page `Page(t, h)` with meta tags named `a1` then `b1`
(distinct names) added in that order and css links `x` then `y` added in
that order, `generate_html()` emits the `<head>` in the fixed sequence —
charset and viewport meta, title, the registered meta tags in insertion
order (`a1` before `b1`), the registered css links in insertion order
(the framework stylesheet, then `x` before `y`), then the inline
`<style>` block — followed by the body, header, scripts and navbar
script. -/
theorem claim_C8 (t h a1 a2 b1 b2 x y : String) (hab : a1 ≠ b1) :
    Page.generate_html (pageWithMetasAndLinks t h a1 a2 b1 b2 x y) = .ok
      ("<!DOCTYPE html>\n<html lang=\"en\" data-bs-theme=\"dark\">\n<head>\n    <meta charset=\"UTF-8\">\n    <meta name=\"viewport\" content=\"width=device-width, initial-scale=1.0\">\n    <title>"
      ++ t ++ "</title>\n"
      ++ ("    <meta name=\"" ++ a1 ++ "\" content=\"" ++ a2 ++ "\">\n"
        ++ ("    <meta name=\"" ++ b1 ++ "\" content=\"" ++ b2 ++ "\">\n" ++ ""))
      ++ ("    <link rel=\"stylesheet\" href=\"" ++ "https://cdn.replit.com/agent/bootstrap-agent-dark-theme.min.css" ++ "\">\n"
        ++ ("    <link rel=\"stylesheet\" href=\"" ++ x ++ "\">\n"
          ++ ("    <link rel=\"stylesheet\" href=\"" ++ y ++ "\">\n" ++ "")))
      ++ "    " ++ ("<style>\n" ++ get_modern_navbar_css ++ "\n    </style>")
      ++ "\n</head>\n<body" ++ "" ++ ">\n    "
      ++ ("\n        <header" ++ " class=\"bg-dark text-light py-3\""
        ++ ">\n            <div class=\"container\">\n                <div class=\"d-flex align-items-center justify-content-between\">\n                    <div class=\"d-flex align-items-center\">\n                        "
        ++ "" ++ "\n                        <h1 class=\"h3 mb-0\">" ++ h
        ++ "</h1>\n                    </div>\n                    "
        ++ ("\n        <nav class=\"navbar\">\n            <div class=\"nav-container\">\n                <a href=\"#\" class=\"logo\">\n                    <span class=\"logo-icon\">"
          ++ "🌟" ++ "</span>\n                    <span>" ++ "NexusLabs"
          ++ "</span>\n                </a>\n\n                <button class=\"hamburger\">\n                    <span></span>\n                    <span></span>\n                    <span></span>\n                    <span></span>\n                </button>\n\n                <ul class=\"nav-links\">\n                    "
          ++ ""
          ++ "\n                    <li class=\"nav-item\">\n                        <button class=\"nav-btn\">Get Started</button>\n                    </li>\n                </ul>\n            </div>\n        </nav>")
        ++ "\n                </div>\n            </div>\n        </header>\n        ")
      ++ "\n    <main class=\"" ++ "container" ++ " mt-4\">\n        " ++ ""
      ++ "\n    </main>\n"
      ++ ("    <script src=\"" ++ "https://cdn.jsdelivr.net/npm/bootstrap@5.3.0/dist/js/bootstrap.bundle.min.js" ++ "\"></script>\n" ++ "")
      ++ "    " ++ ("<script>\n" ++ get_modern_navbar_js ++ "\n    </script>")
      ++ "\n</body>\n</html>") := by
  simp [pageWithMetasAndLinks, Page.generate_html, Page.init, Page.add_meta_tag,
    Page.add_css_link, Page.add_script, Page.render_meta_tags, Page.render_css_links,
    Page.render_scripts, Page.render_header, Page.render_navbar,
    Page.render_modern_navbar, strConcatMap, exceptConcatMap, pyJoin, pyStr,
    dictSet, hab, Json.truthy, strTruthy, navbarCssEqEmpty_false, exPure, exBindOk,
    Except.bind, pure, Except.pure, String.append_assoc]
  apply String.ext
  simp [String.data_append]

set_option maxRecDepth 20000 in
theorem claim_C8_witness :
    Page.generate_html (pageWithMetasAndLinks "T" "H" "A" "a" "B" "b" "X" "Y") = .ok
      ("<!DOCTYPE html>\n<html lang=\"en\" data-bs-theme=\"dark\">\n<head>\n    <meta charset=\"UTF-8\">\n    <meta name=\"viewport\" content=\"width=device-width, initial-scale=1.0\">\n    <title>"
      ++ "T" ++ "</title>\n"
      ++ ("    <meta name=\"" ++ "A" ++ "\" content=\"" ++ "a" ++ "\">\n"
        ++ ("    <meta name=\"" ++ "B" ++ "\" content=\"" ++ "b" ++ "\">\n" ++ ""))
      ++ ("    <link rel=\"stylesheet\" href=\"" ++ "https://cdn.replit.com/agent/bootstrap-agent-dark-theme.min.css" ++ "\">\n"
        ++ ("    <link rel=\"stylesheet\" href=\"" ++ "X" ++ "\">\n"
          ++ ("    <link rel=\"stylesheet\" href=\"" ++ "Y" ++ "\">\n" ++ "")))
      ++ "    " ++ ("<style>\n" ++ get_modern_navbar_css ++ "\n    </style>")
      ++ "\n</head>\n<body" ++ "" ++ ">\n    "
      ++ ("\n        <header" ++ " class=\"bg-dark text-light py-3\""
        ++ ">\n            <div class=\"container\">\n                <div class=\"d-flex align-items-center justify-content-between\">\n                    <div class=\"d-flex align-items-center\">\n                        "
        ++ "" ++ "\n                        <h1 class=\"h3 mb-0\">" ++ "H"
        ++ "</h1>\n                    </div>\n                    "
        ++ ("\n        <nav class=\"navbar\">\n            <div class=\"nav-container\">\n                <a href=\"#\" class=\"logo\">\n                    <span class=\"logo-icon\">"
          ++ "🌟" ++ "</span>\n                    <span>" ++ "NexusLabs"
          ++ "</span>\n                </a>\n\n                <button class=\"hamburger\">\n                    <span></span>\n                    <span></span>\n                    <span></span>\n                    <span></span>\n                </button>\n\n                <ul class=\"nav-links\">\n                    "
          ++ ""
          ++ "\n                    <li class=\"nav-item\">\n                        <button class=\"nav-btn\">Get Started</button>\n                    </li>\n                </ul>\n            </div>\n        </nav>")
        ++ "\n                </div>\n            </div>\n        </header>\n        ")
      ++ "\n    <main class=\"" ++ "container" ++ " mt-4\">\n        " ++ ""
      ++ "\n    </main>\n"
      ++ ("    <script src=\"" ++ "https://cdn.jsdelivr.net/npm/bootstrap@5.3.0/dist/js/bootstrap.bundle.min.js" ++ "\"></script>\n" ++ "")
      ++ "    " ++ ("<script>\n" ++ get_modern_navbar_js ++ "\n    </script>")
      ++ "\n</body>\n</html>") :=
  claim_C8 "T" "H" "A" "a" "B" "b" "X" "Y" (by decide)

/-- C9: once an element is added to a page, the body fragment is frozen as
the string rendered at that moment: running the `add_content` statement
followed by any sequence of element mutations leaves the page component
of the state — and hence the output of `generate_html()` — exactly as it
is after `add_content` alone. -/
theorem claim_C9 (p : Page) (e : PyElem) (muts : List Op)
    (hm : ∀ op ∈ muts, op.elemOnly = true) :
    ((runOps (Op.addContent :: muts) (p, e)).1).1 = ((runOps [Op.addContent] (p, e)).1).1
    ∧ Page.generate_html ((runOps (Op.addContent :: muts) (p, e)).1).1
      = Page.generate_html ((runOps [Op.addContent] (p, e)).1).1 := by
  have hpage : ((runOps (Op.addContent :: muts) (p, e)).1).1
      = ((runOps [Op.addContent] (p, e)).1).1 := by
    cases hadd : applyOp .addContent (p, e) with
    | ok st' =>
      obtain ⟨p', e'⟩ := st'
      simp [runOps, hadd, runOps_elemOnly_page muts p' e' hm]
    | error err => simp [runOps, hadd]
  exact ⟨hpage, congrArg _ hpage⟩

theorem claim_C9_witness :
    ((runOps [Op.addContent, Op.setAttributeOp "k" "v"] (samplePage, sampleElem)).1).1
      = ((runOps [Op.addContent] (samplePage, sampleElem)).1).1
    ∧ Page.generate_html ((runOps [Op.addContent, Op.setAttributeOp "k" "v"]
        (samplePage, sampleElem)).1).1
      = Page.generate_html ((runOps [Op.addContent] (samplePage, sampleElem)).1).1 :=
  claim_C9 samplePage sampleElem [Op.setAttributeOp "k" "v"] (by decide)

/-- C10: the base-class `render()` is deterministic and effect-free in a
fixed attribute/content state: viewed as a state transformer on the
receiver, a successful call returns the receiver unchanged, and calling
it again on that receiver returns the identical string (and again the
unchanged receiver). -/
theorem claim_C10 (e : PyElem) (s : String) (e' : PyElem)
    (h : Element.render_m e = .ok (s, e')) :
    e' = e ∧ Element.render_m e' = .ok (s, e') := by
  cases hr : Element.render e with
  | ok t =>
    rw [Element.render_m, hr] at h
    simp [Except.map] at h
    obtain ⟨hs, he⟩ := h
    subst hs
    subst he
    exact ⟨rfl, by rw [Element.render_m, hr]; rfl⟩
  | error err =>
    rw [Element.render_m, hr] at h
    simp [Except.map] at h

theorem claim_C10_witness :
    sampleElem = sampleElem
    ∧ Element.render_m sampleElem = .ok ("<div>x</div>", sampleElem) :=
  claim_C10 sampleElem "<div>x</div>" sampleElem rfl
